import Mathlib

/-!
# Verification of the anidb-to-trakt synchronization core

A shallow embedding, in Lean 4, of the conflict-resolution and batched-sync
core of the `anidb-to-trakt` repository (`src/models.py`, `src/id_mapper.py`,
`src/trakt_data.py`, `src/trakt_sync.py`, `src/trakt_client.py`), together
with theorems settling the specification claims about it.

Conventions of the embedding:
* Python `datetime` values are modelled by the `DateTime` structure below
  (naive datetimes; comparison is field-lexicographic, as in CPython).
* Python strings appearing in the checkpoint timestamp round-trip are
  modelled as `List Char`; strings used only for equality tests elsewhere
  are Lean `String`s.
* Python truthiness tests on optional values are made explicit: a missing
  value, the number `0` and the empty string are falsy.
* Side-effecting collaborators (the HTTP client, `time.sleep`) are modelled
  by oracles: a list or function giving the outcome of each call, and sleeps
  are returned as data instead of performed.
-/

namespace AnidbToTrakt

/-! ## Datetimes (Python `datetime.datetime`, naive) -/

/-- A naive Python `datetime`: CPython stores exactly these seven fields and
compares two naive datetimes lexicographically on them. -/
structure DateTime where
  year : Nat
  month : Nat
  day : Nat
  hour : Nat
  minute : Nat
  second : Nat
  microsecond : Nat
deriving DecidableEq, Repr

/-- `a < b` on naive datetimes: CPython compares the field tuples
`(year, month, day, hour, minute, second, microsecond)` lexicographically. -/
def DateTime.ltb (a b : DateTime) : Bool :=
  if a.year ≠ b.year then a.year < b.year
  else if a.month ≠ b.month then a.month < b.month
  else if a.day ≠ b.day then a.day < b.day
  else if a.hour ≠ b.hour then a.hour < b.hour
  else if a.minute ≠ b.minute then a.minute < b.minute
  else if a.second ≠ b.second then a.second < b.second
  else a.microsecond < b.microsecond

/-! ## Data model (`src/models.py`) -/

/-- `EpisodeType` (`models.py`): the prefix class of an AniDB episode. -/
inductive EpisodeType where
  | REGULAR
  | SPECIAL
  | CREDITS
  | TRAILER
  | PARODY
  | OTHER
deriving DecidableEq, Repr

/-- `WatchedEpisode` (`models.py`). -/
structure WatchedEpisode where
  episode_number : Int
  episode_type : EpisodeType := .REGULAR
  watched_at : Option DateTime := none
deriving DecidableEq, Repr

/-- `WatchedEpisode.is_special`: `episode_type != EpisodeType.REGULAR`. -/
def WatchedEpisode.is_special (ep : WatchedEpisode) : Bool :=
  ep.episode_type ≠ EpisodeType.REGULAR

/-- `AnimeRating` (`models.py`). -/
structure AnimeRating where
  score : Int
  rated_at : Option DateTime := none
  is_temporary : Bool := false
deriving DecidableEq, Repr

/-- `MappedIds` (`models.py`): Trakt-compatible IDs for an anime. -/
structure MappedIds where
  tvdb_id : Option Int := none
  imdb_id : Option String := none
  tmdb_show_id : Option Int := none
  tmdb_movie_id : Option Int := none
  tvdb_season : Int := 1
  tvdb_epoffset : Int := 0
deriving DecidableEq, Repr

/-- Python truthiness of an `int | None` field: `None` and `0` are falsy. -/
def truthyInt : Option Int → Bool
  | none => false
  | some n => n ≠ 0

/-- Python truthiness of a `str | None` field: `None` and `""` are falsy. -/
def truthyStr : Option String → Bool
  | none => false
  | some s => s ≠ ""

/-- `MappedIds.has_any_id`: `any([tvdb_id, imdb_id, tmdb_show_id,
tmdb_movie_id])` — Python `any` applies truthiness to each element. -/
def MappedIds.has_any_id (ids : MappedIds) : Bool :=
  truthyInt ids.tvdb_id || truthyStr ids.imdb_id ||
    truthyInt ids.tmdb_show_id || truthyInt ids.tmdb_movie_id

/-- `MappedIds.is_movie`: `tmdb_movie_id is not None and tvdb_id is None`
(an identity test, not a truthiness test). -/
def MappedIds.is_movie (ids : MappedIds) : Bool :=
  ids.tmdb_movie_id.isSome && ids.tvdb_id.isNone

/-- A value stored in the Trakt-format id dict: TVDB/TMDB ids are ints,
IMDB ids are strings. -/
inductive TraktIdVal where
  | int (n : Int)
  | str (s : String)
deriving DecidableEq, Repr

/-- `MappedIds.get_trakt_ids`: builds the id dict key by key; each `if`
uses Python truthiness, and tmdb is only set when tvdb is falsy, preferring
the movie id (`if ... elif ...`). The dict is modelled as its ordered list
of key/value insertions. -/
def MappedIds.get_trakt_ids (ids : MappedIds) : List (String × TraktIdVal) :=
  (if truthyInt ids.tvdb_id then [("tvdb", .int (ids.tvdb_id.getD 0))] else []) ++
  (if truthyStr ids.imdb_id then [("imdb", .str (ids.imdb_id.getD ""))] else []) ++
  (if truthyInt ids.tmdb_movie_id && !truthyInt ids.tvdb_id then
      [("tmdb", .int (ids.tmdb_movie_id.getD 0))]
    else if truthyInt ids.tmdb_show_id && !truthyInt ids.tvdb_id then
      [("tmdb", .int (ids.tmdb_show_id.getD 0))]
    else [])

/-- `AnimeEntry` (`models.py`), restricted to the fields the sync core
reads. -/
structure AnimeEntry where
  anidb_id : Int
  watched_episodes : List WatchedEpisode := []
  rating : Option AnimeRating := none
  mapped_ids : Option MappedIds := none
deriving DecidableEq, Repr

/-- `AnimeEntry.is_mapped`: `mapped_ids is not None and mapped_ids.has_any_id`. -/
def AnimeEntry.is_mapped (a : AnimeEntry) : Bool :=
  match a.mapped_ids with
  | none => false
  | some ids => ids.has_any_id

/-- `TraktEntry` (`models.py`): an existing entry fetched from Trakt. The
`watched_episodes` list of `{season, episode}` dicts is modelled as a list
of pairs. -/
structure TraktEntry where
  trakt_id : Int
  rating : Option Int := none
  rated_at : Option DateTime := none
  watched_episodes : List (Int × Int) := []
  is_movie : Bool := false
deriving DecidableEq, Repr

/-- `ConflictResolution` (`models.py`), without the back-references to the
input objects (which the resolver stores but the claims do not read). -/
structure ConflictResolution where
  keep_anidb_rating : Bool := true
  rating_conflict : Bool := false
  episodes_to_sync : List WatchedEpisode := []
deriving DecidableEq, Repr

/-! ## Episode translation (`src/id_mapper.py`, `IDMapper.map_episode_to_trakt`) -/

/-- `IDMapper.map_episode_to_trakt`: specials go to season 0 with the
episode number unchanged; regular episodes use `tvdb_season` and add
`tvdb_epoffset`. -/
def map_episode_to_trakt (episode : WatchedEpisode) (mapped_ids : MappedIds) :
    Int × Int :=
  if episode.is_special then
    (0, episode.episode_number)
  else
    (mapped_ids.tvdb_season, episode.episode_number + mapped_ids.tvdb_epoffset)

/-! ## Conflict resolution (`src/trakt_data.py`, `ConflictResolver`) -/

/-- `ConflictResolver._older_rating_wins`: when both timestamps are present
(datetimes are always truthy) the AniDB rating wins iff it is strictly
earlier; otherwise it wins iff the AniDB timestamp is present. -/
def older_rating_wins (anidb_date trakt_date : Option DateTime) : Bool :=
  match anidb_date, trakt_date with
  | some a, some t => DateTime.ltb a t
  | some _, none => true
  | none, _ => false

/-- The rating part of `ConflictResolver._resolve_single`: returns the pair
`(keep_anidb_rating, rating_conflict)` starting from the dataclass defaults
`(true, false)`. The guard `anime.rating and trakt_entry and
trakt_entry.rating` applies truthiness: a present rating object is truthy,
`trakt_entry.rating` is an `int | None` so `0` is falsy. -/
def resolve_rating (rating : Option AnimeRating) (trakt_entry : Option TraktEntry) :
    Bool × Bool :=
  match rating with
  | none => (true, false)
  | some ar =>
    match trakt_entry with
    | none => (true, false)
    | some te =>
      if truthyInt te.rating then
        let tr := te.rating.getD 0
        if ar.score ≠ tr then
          (older_rating_wins ar.rated_at te.rated_at, true)
        else
          (true, false)
      else
        (true, false)

/-- The `existing_eps` set `_resolve_single` builds: the (season, episode)
pairs of the Trakt entry's watched episodes, or the empty set when there
is no Trakt entry. Set membership is modelled by list membership. -/
def remote_watched_set (trakt_entry : Option TraktEntry) : List (Int × Int) :=
  match trakt_entry with
  | some te => te.watched_episodes
  | none => []

/-- The episode part of `ConflictResolver._resolve_single`: each locally
watched episode whose translated pair is not in the pre-built remote set
is appended, in order. -/
def episodes_to_sync_of (watched : List WatchedEpisode) (mapped_ids : MappedIds)
    (trakt_entry : Option TraktEntry) : List WatchedEpisode :=
  watched.filter
    (fun ep => map_episode_to_trakt ep mapped_ids ∉ remote_watched_set trakt_entry)

/-- `ConflictResolver._resolve_single`, assembled from its two parts. Its
callers only reach it with `is_mapped` entries, so `mapped_ids` is present;
`getD default` stands for the attribute access Python performs on it. -/
def resolve_single (anime : AnimeEntry) (trakt_entry : Option TraktEntry) :
    ConflictResolution :=
  let r := resolve_rating anime.rating trakt_entry
  { keep_anidb_rating := r.1
    rating_conflict := r.2
    episodes_to_sync :=
      episodes_to_sync_of anime.watched_episodes
        (anime.mapped_ids.getD {}) trakt_entry }

/-- `ConflictResolver.resolve`: entries failing `is_mapped` are skipped
(`continue`); each remaining entry is resolved against the entry the data
fetcher returns for it (modelled by the oracle `fetched`). -/
def resolve (fetched : AnimeEntry → Option TraktEntry)
    (anime_list : List AnimeEntry) : List ConflictResolution :=
  (anime_list.filter (fun a => a.is_mapped)).map
    (fun a => resolve_single a (fetched a))

/-! ## Batch sync engine (`src/trakt_sync.py`, `TraktSyncer`) -/

/-- `BATCH_SIZE` (`trakt_sync.py`). -/
def BATCH_SIZE : Nat := 50

/-- `MAX_CONSECUTIVE_FAILURES` (`trakt_sync.py`). -/
def MAX_CONSECUTIVE_FAILURES : Nat := 3

/-- `BACKOFF_BASE_SECONDS` (`trakt_sync.py`). -/
def BACKOFF_BASE_SECONDS : Nat := 5

/-- `MAX_BACKOFF_SECONDS` (`trakt_sync.py`). -/
def MAX_BACKOFF_SECONDS : Nat := 60

/-- The counts `_sync_ratings` / `_sync_history` read out of a successful
sync response (`added` and `not_found`, with `.get(…, 0)` / empty-list
defaults already applied). -/
structure SyncResponse where
  added_shows : Nat := 0
  added_movies : Nat := 0
  added_episodes : Nat := 0
  not_found_shows : Nat := 0
  not_found_movies : Nat := 0
deriving DecidableEq, Repr

/-- The fields of the `results` dict that the two batch loops themselves
mutate, plus two instrumentation counters `ratings_batches_attempted` /
`history_batches_attempted` counting the `_sync_batch` calls each loop
makes (the Python dict has no such field; they are the formal stand-in for
"a further batch was attempted"). The `errors` / `failed_batches` lists
are mutated inside `_sync_batch`, which is modelled separately by
`sync_batch` below and abstracted here by the per-batch outcome oracle. -/
structure SyncResults where
  history_added : Nat := 0
  history_existing : Nat := 0
  ratings_added : Nat := 0
  ratings_existing : Nat := 0
  stopped_early : Bool := false
  ratings_batches_attempted : Nat := 0
  history_batches_attempted : Nat := 0
deriving DecidableEq, Repr

/-- The success-branch accumulation of `_sync_ratings`: shows+movies added,
`not_found` shows/movies counted as existing. -/
def accum_ratings (resp : SyncResponse) (r : SyncResults) : SyncResults :=
  { r with
    ratings_added := r.ratings_added + (resp.added_shows + resp.added_movies)
    ratings_existing :=
      r.ratings_existing + resp.not_found_shows + resp.not_found_movies }

/-- The success-branch accumulation of `_sync_history`: episodes+movies
added, `not_found` shows/movies counted as existing. -/
def accum_history (resp : SyncResponse) (r : SyncResults) : SyncResults :=
  { r with
    history_added := r.history_added + (resp.added_episodes + resp.added_movies)
    history_existing :=
      r.history_existing + resp.not_found_shows + resp.not_found_movies }

/-- The batch loop of `_sync_ratings`, abstracted over the outcome of each
`_sync_batch` call (`none` = the call returned `None`, i.e. the batch
failed after its inline retry and was recorded; `some resp` = success).
`consecutive` is the local variable `consecutive_failures`: it increments
on a failure (stopping the whole phase with `stopped_early` when it
reaches `MAX_CONSECUTIVE_FAILURES`) and resets to `0` on a success. -/
def sync_ratings_go : List (Option SyncResponse) → Nat → SyncResults → SyncResults
  | [], _, results => results
  | o :: rest, consecutive, results =>
    let results := { results with
      ratings_batches_attempted := results.ratings_batches_attempted + 1 }
    match o with
    | none =>
      if consecutive + 1 ≥ MAX_CONSECUTIVE_FAILURES then
        { results with stopped_early := true }
      else
        sync_ratings_go rest (consecutive + 1) results
    | some resp => sync_ratings_go rest 0 (accum_ratings resp results)

/-- The batch loops of `_sync_history`, abstracted the same way. The Python
code iterates shows then movies with one shared `consecutive_failures`
counter, and the early `return` leaves both loops at once, so the two
chains flatten into a single outcome list. -/
def sync_history_go : List (Option SyncResponse) → Nat → SyncResults → SyncResults
  | [], _, results => results
  | o :: rest, consecutive, results =>
    let results := { results with
      history_batches_attempted := results.history_batches_attempted + 1 }
    match o with
    | none =>
      if consecutive + 1 ≥ MAX_CONSECUTIVE_FAILURES then
        { results with stopped_early := true }
      else
        sync_history_go rest (consecutive + 1) results
    | some resp => sync_history_go rest 0 (accum_history resp results)

/-- The non-dry-run body of `TraktSyncer.sync`: ratings are synced first
(when requested and data is present — `none` models `sync_ratings` false
or absent `ratings_data`), then history only when requested, data is
present and `results["stopped_early"]` has not been set. -/
def sync_run (ratings_outcomes history_outcomes : Option (List (Option SyncResponse))) :
    SyncResults :=
  let results : SyncResults := {}
  let results :=
    match ratings_outcomes with
    | some os => sync_ratings_go os 0 results
    | none => results
  match history_outcomes with
  | some os => if results.stopped_early then results else sync_history_go os 0 results
  | none => results

/-- Three consecutive failed batches starting at index `i` of an outcome
sequence: positions `i`, `i+1`, `i+2` are all `none`. -/
def tripleAt (os : List (Option SyncResponse)) (i : Nat) : Prop :=
  (os.drop i).take 3 = [none, none, none]

instance (os : List (Option SyncResponse)) (i : Nat) : Decidable (tripleAt os i) := by
  unfold tripleAt
  infer_instance

/-- The outcome of one `sync_func(batch_data)` call as `_sync_batch`
distinguishes them: a parsed response, a `TraktAPIError` carrying an HTTP
status code, or any other exception. -/
inductive CallResult where
  | ok (resp : SyncResponse)
  | apiError (status_code : Nat)
  | unexpected
deriving DecidableEq, Repr

/-- Everything one `_sync_batch` call did, for a batch payload of type `π`:
its return value (`some resp` or `none` for the Python `None`), whether an
exception escaped it, the `{"type": …, "data": …}` records it appended to
`results["failed_batches"]`, the `"<type> batch <num> failed"` messages it
appended to `results["errors"]` (modelled by their identifying
`(batch_type, batch_num)` content), the backoff it slept, and whether it
called `sync_func` a second time. -/
structure BatchCallOutcome (π : Type) where
  response : Option SyncResponse
  raised : Bool
  new_failed_batches : List (String × π)
  new_errors : List (String × Nat)
  slept : Option Nat
  retried : Bool
deriving Repr

/-- `TraktSyncer._sync_batch`: try the request once; on a `TraktAPIError`
with status ≥ 500, sleep `min(BACKOFF_BASE_SECONDS * 2**consecutive_failures,
MAX_BACKOFF_SECONDS)` and retry exactly once, recording the batch as failed
only if the retry also raises a `TraktAPIError`; on a non-5xx
`TraktAPIError` or any other first-attempt exception, record the batch as
failed immediately with no retry and no sleep. The inner retry `try`
catches only `TraktAPIError`, so a different exception raised by the retry
escapes `_sync_batch` (`raised := true`). `attempt1` / `attempt2` are the
oracle for the two possible `sync_func` calls. -/
def sync_batch {π : Type} (attempt1 attempt2 : CallResult) (batch_data : π)
    (batch_num : Nat) (consecutive_failures : Nat) (batch_type : String) :
    BatchCallOutcome π :=
  match attempt1 with
  | .ok r =>
    { response := some r, raised := false, new_failed_batches := [],
      new_errors := [], slept := none, retried := false }
  | .apiError sc =>
    if sc ≥ 500 then
      let backoff := min (BACKOFF_BASE_SECONDS * 2 ^ consecutive_failures)
        MAX_BACKOFF_SECONDS
      match attempt2 with
      | .ok r =>
        { response := some r, raised := false, new_failed_batches := [],
          new_errors := [], slept := some backoff, retried := true }
      | .apiError _ =>
        { response := none, raised := false,
          new_failed_batches := [(batch_type, batch_data)],
          new_errors := [(batch_type, batch_num)],
          slept := some backoff, retried := true }
      | .unexpected =>
        { response := none, raised := true, new_failed_batches := [],
          new_errors := [], slept := some backoff, retried := true }
    else
      { response := none, raised := false,
        new_failed_batches := [(batch_type, batch_data)],
        new_errors := [(batch_type, batch_num)],
        slept := none, retried := false }
  | .unexpected =>
    { response := none, raised := false,
      new_failed_batches := [(batch_type, batch_data)],
      new_errors := [(batch_type, batch_num)],
      slept := none, retried := false }

/-! ## Client request loop (`src/trakt_client.py`, `TraktClient._request`) -/

/-- What one HTTP attempt inside `_request` yields: a response with a
status code (and, when present, the `Retry-After` header as a number), or
an `httpx.HTTPError` raised by the transport. -/
inductive HttpAttempt where
  | response (status : Nat) (retry_after : Option Nat)
  | transportError
deriving DecidableEq, Repr

/-- How `_request` ends: a parsed body (or `{}` for 204), or one of the
three `TraktAPIError` raises — the per-status raise, the
`"Request failed"` raise after the final transport error, or the
`"Max retries exceeded"` raise after the `for` loop is exhausted (the
latter two carry `status_code = 0`). -/
inductive ReqOutcome where
  | ok
  | apiError (status : Nat)
  | requestFailed
  | maxRetries
deriving DecidableEq, Repr

/-- The `for attempt in range(retries)` loop of `_request`, abstracted over
an oracle giving each attempt's result; the returned list records every
sleep the loop performs, in order. `fuel = retries - idx` counts the loop
iterations still available (including the current one); when it runs out
the function falls through to `raise TraktAPIError("Max retries
exceeded")`. A 429 response sleeps the `Retry-After` value (default 60)
and continues the loop — consuming an iteration; a status ≥ 400 raises the
per-status error; any other status returns the body. A transport error
sleeps `2**attempt` and continues unless this was the last iteration
(`attempt < retries - 1`, i.e. `fuel ≥ 2`), in which case it raises. -/
def request_go (oracle : Nat → HttpAttempt) : Nat → Nat → ReqOutcome × List Nat
  | 0, _ => (.maxRetries, [])
  | fuel + 1, idx =>
    match oracle idx with
    | .response 429 ra =>
      let rest := request_go oracle fuel (idx + 1)
      (rest.1, ra.getD 60 :: rest.2)
    | .response status _ =>
      if status ≥ 400 then (.apiError status, [])
      else (.ok, [])
    | .transportError =>
      if fuel ≥ 1 then
        let rest := request_go oracle fuel (idx + 1)
        (rest.1, 2 ^ idx :: rest.2)
      else (.requestFailed, [])

/-- `TraktClient._request` with its default `retries = 3`, starting at
attempt index 0. -/
def request (oracle : Nat → HttpAttempt) (retries : Nat := 3) :
    ReqOutcome × List Nat :=
  request_go oracle retries 0

/-! ## Checkpoint persistence (`src/trakt_sync.py`, `save_checkpoint` /
`load_checkpoint`, with `datetime_to_iso` and
`trakt_data.iso_to_datetime`) -/

/-- `SyncCheckpoint` (`models.py`). The error records are arbitrary JSON
objects the checkpoint code never inspects, so they are a type
parameter. -/
structure SyncCheckpoint (ε : Type) where
  last_processed_index : Int := 0
  synced_ratings : List Int := []
  synced_history : List Int := []
  errors : List ε := []
  timestamp : Option DateTime := none
deriving DecidableEq, Repr

/-- The checkpoint file's parsed JSON object. `json.dump` followed by
`json.load` is the identity on the int / int-list / object-list / string
values stored here, so the file is modelled by the parsed object itself;
each field is optional because `load_checkpoint` reads every key with a
`.get` default. -/
structure CheckpointJson (ε : Type) where
  last_processed_index : Option Int := none
  synced_ratings : Option (List Int) := none
  synced_history : Option (List Int) := none
  errors : Option (List ε) := none
  timestamp : Option (List Char) := none
deriving DecidableEq, Repr

/-- The digit character CPython's formatting writes for the decimal digit
`n % 10`. -/
def digitChar (n : Nat) : Char := Char.ofNat (48 + n % 10)

/-- A two-digit zero-padded field (`%m`, `%d`, `%H`, `%M`, `%S`). -/
def pad2 (n : Nat) : List Char := [digitChar (n / 10), digitChar n]

/-- The four decimal digits of a number below 10000 (what `%Y` prints for
years ≥ 1000). -/
def pad4 (n : Nat) : List Char :=
  [digitChar (n / 1000), digitChar (n / 100), digitChar (n / 10), digitChar n]

/-- The `%Y` field as glibc's `strftime` writes it (the behavior of
CPython 3.11 on Linux): the year in decimal with **no padding** — four
digits for years 1000–9999, fewer digits for smaller years. -/
def formatYear (y : Nat) : List Char :=
  if 1000 ≤ y then pad4 y
  else if 100 ≤ y then [digitChar (y / 100), digitChar (y / 10), digitChar y]
  else if 10 ≤ y then [digitChar (y / 10), digitChar y]
  else [digitChar y]

/-- `datetime_to_iso` (`trakt_sync.py`):
`dt.strftime("%Y-%m-%dT%H:%M:%S.000Z")` — note the fractional part is the
literal `000`, whatever the datetime's microseconds are, and the year is
written unpadded (`formatYear`). -/
def datetime_to_iso : Option DateTime → Option (List Char)
  | none => none
  | some dt =>
    some (formatYear dt.year ++ '-' :: pad2 dt.month ++ '-' :: pad2 dt.day ++
      'T' :: pad2 dt.hour ++ ':' :: pad2 dt.minute ++ ':' :: pad2 dt.second ++
      ['.', '0', '0', '0', 'Z'])

/-- The serialized timestamp without its trailing `Z`; `datetime_to_iso`
produces `isoCore dt ++ ['Z']`. -/
def isoCore (dt : DateTime) : List Char :=
  formatYear dt.year ++ '-' :: pad2 dt.month ++ '-' :: pad2 dt.day ++
    'T' :: pad2 dt.hour ++ ':' :: pad2 dt.minute ++ ':' :: pad2 dt.second ++
    ['.', '0', '0', '0']

/-- Does `pat` start the list `s`? -/
def startsWith : List Char → List Char → Bool
  | [], _ => true
  | _ :: _, [] => false
  | p :: ps, c :: cs => p = c && startsWith ps cs

/-- Python `str.replace(pat, repl)` for a non-empty `pat`: scan left to
right, replacing non-overlapping occurrences. (Python's behavior for an
empty pattern is different, but the two patterns used here — `"Z"` and
`"+00:00"` — are non-empty.) -/
def replaceAll (pat repl : List Char) (s : List Char) : List Char :=
  match s with
  | [] => []
  | c :: cs =>
    if startsWith pat (c :: cs) ∧ pat ≠ [] then
      repl ++ replaceAll pat repl (cs.drop (pat.length - 1))
    else
      c :: replaceAll pat repl cs
termination_by s.length
decreasing_by
  · simp only [List.length_cons, List.length_drop]
    omega
  · simp only [List.length_cons]
    omega

/-- `c.isdigit()`-style digit read: the value of an ASCII digit. -/
def digitVal (c : Char) : Option Nat :=
  if c.isDigit then some (c.toNat - 48) else none

/-- Read a fixed two-digit field, returning the rest of the input. -/
def parse2digits (cs : List Char) : Option (Nat × List Char) :=
  match cs with
  | c1 :: c2 :: rest =>
    match digitVal c1, digitVal c2 with
    | some d1, some d2 => some (d1 * 10 + d2, rest)
    | _, _ => none
  | _ => none

/-- Read a fixed four-digit field, returning the rest of the input. -/
def parse4digits (cs : List Char) : Option (Nat × List Char) :=
  match cs with
  | c1 :: c2 :: c3 :: c4 :: rest =>
    match digitVal c1, digitVal c2, digitVal c3, digitVal c4 with
    | some d1, some d2, some d3, some d4 =>
      some (((d1 * 10 + d2) * 10 + d3) * 10 + d4, rest)
    | _, _, _, _ => none
  | _ => none

/-- Consume one expected character. -/
def expectChar (ch : Char) : List Char → Option (List Char)
  | c :: cs => if c = ch then some cs else none
  | [] => none

/-- Gregorian leap year, as `datetime` uses. -/
def isLeap (y : Nat) : Bool :=
  (y % 4 = 0 && y % 100 ≠ 0) || y % 400 = 0

/-- Days in a month, as `datetime` validates. -/
def daysInMonth (y m : Nat) : Nat :=
  if m = 2 then (if isLeap y then 29 else 28)
  else if m = 4 ∨ m = 6 ∨ m = 9 ∨ m = 11 then 30
  else 31

/-- The range checks the `datetime` constructor performs; out-of-range
fields raise `ValueError`, which the parser surfaces as `none`. -/
def mkDateTime (y mo d h mi s micro : Nat) : Option DateTime :=
  if 1 ≤ y ∧ y ≤ 9999 ∧ 1 ≤ mo ∧ mo ≤ 12 ∧ 1 ≤ d ∧ d ≤ daysInMonth y mo ∧
      h ≤ 23 ∧ mi ≤ 59 ∧ s ≤ 59 ∧ micro ≤ 999999 then
    some ⟨y, mo, d, h, mi, s, micro⟩
  else none

/-- The field ranges a Python `datetime` value always satisfies (its
constructor enforces them). -/
def DateTime.valid (d : DateTime) : Prop :=
  1 ≤ d.year ∧ d.year ≤ 9999 ∧ 1 ≤ d.month ∧ d.month ≤ 12 ∧
    1 ≤ d.day ∧ d.day ≤ daysInMonth d.year d.month ∧
    d.hour ≤ 23 ∧ d.minute ≤ 59 ∧ d.second ≤ 59 ∧ d.microsecond ≤ 999999

instance (d : DateTime) : Decidable d.valid := by
  unfold DateTime.valid
  infer_instance

/-- The fractional-seconds part after the `.`: 1–6 digits, scaled to
microseconds. -/
def parseFraction (cs : List Char) : Option Nat :=
  if cs ≠ [] ∧ cs.length ≤ 6 ∧ cs.all Char.isDigit then
    some ((cs.foldl (fun acc c => acc * 10 + (c.toNat - 48)) 0) *
      10 ^ (6 - cs.length))
  else none

/-- `datetime.fromisoformat`, modelled on the sublanguage of ISO-8601
strings the sync core can feed it after `iso_to_datetime`'s offset
stripping: `YYYY-MM-DD`, optionally followed by a single separator
character (CPython accepts any) and `HH:MM:SS` with an optional 1–6 digit
fraction. Anything else — including the further forms CPython would
accept — is out of the embedding's domain and maps to `none`, as a
`ValueError` does. -/
def fromisoformat (s : List Char) : Option DateTime := do
  let (y, cs) ← parse4digits s
  let cs ← expectChar '-' cs
  let (mo, cs) ← parse2digits cs
  let cs ← expectChar '-' cs
  let (d, cs) ← parse2digits cs
  match cs with
  | [] => mkDateTime y mo d 0 0 0 0
  | _sep :: cs => do
    let (h, cs) ← parse2digits cs
    let cs ← expectChar ':' cs
    let (mi, cs) ← parse2digits cs
    let cs ← expectChar ':' cs
    let (sec, cs) ← parse2digits cs
    match cs with
    | [] => mkDateTime y mo d h mi sec 0
    | '.' :: frac => do
      let micro ← parseFraction frac
      mkDateTime y mo d h mi sec micro
    | _ => none

/-- The characters of `"+00:00"`. -/
def plusZeros : List Char := ['+', '0', '0', ':', '0', '0']

/-- `iso_to_datetime` (`trakt_data.py`): `None` and the empty string map
to `None` (`if not iso_str`); otherwise `"Z"` is rewritten to `"+00:00"`,
every `"+00:00"` is then removed, and the result is parsed, with a
`ValueError` mapped to `None`. -/
def iso_to_datetime (iso_str : Option (List Char)) : Option DateTime :=
  match iso_str with
  | none => none
  | some s =>
    if s = [] then none
    else fromisoformat (replaceAll plusZeros [] (replaceAll ['Z'] plusZeros s))

/-- `save_checkpoint` (`trakt_sync.py`): the JSON object written to disk.
`checkpoint.timestamp or datetime.now()` — a `datetime` is always truthy,
so a missing timestamp is replaced by the current time, passed here as
`now`. Every key is written. -/
def save_checkpoint {ε : Type} (now : DateTime) (checkpoint : SyncCheckpoint ε) :
    CheckpointJson ε :=
  { last_processed_index := some checkpoint.last_processed_index
    synced_ratings := some checkpoint.synced_ratings
    synced_history := some checkpoint.synced_history
    errors := some checkpoint.errors
    timestamp := datetime_to_iso (some (checkpoint.timestamp.getD now)) }

/-- The field extraction `load_checkpoint` performs on a successfully
parsed checkpoint file (`data.get(key, default)` for each field). -/
def load_checkpoint_data {ε : Type} (data : CheckpointJson ε) : SyncCheckpoint ε :=
  { last_processed_index := data.last_processed_index.getD 0
    synced_ratings := data.synced_ratings.getD []
    synced_history := data.synced_history.getD []
    errors := data.errors.getD []
    timestamp := iso_to_datetime data.timestamp }

/-- `load_checkpoint` (`trakt_sync.py`). The argument models the file:
`none` = the path does not exist, `some (.error e)` = reading/parsing it
raises `json.JSONDecodeError` or `OSError` with message `e`, `some (.ok
data)` = it parses to `data`. The result is `Except` so that a propagated
exception (an `.error` result) is expressible: the function's
`except (json.JSONDecodeError, OSError): return None` clause means it in
fact always returns `.ok`. -/
def load_checkpoint {ε : Type} (file : Option (Except String (CheckpointJson ε))) :
    Except String (Option (SyncCheckpoint ε)) :=
  match file with
  | none => .ok none
  | some (.error _) => .ok none
  | some (.ok data) => .ok (some (load_checkpoint_data data))

/-! ## Claim C3: episode translation -/

/-- **C3.** For every watched episode and `MappedIds`,
`map_episode_to_trakt` returns `(0, episode_number)` when the episode is
special (`episode_type ≠ Regular`), regardless of the configured
`tvdb_season`, and `(tvdb_season, episode_number + tvdb_epoffset)` when
the episode is regular. -/
theorem map_episode_special_regular (ep : WatchedEpisode) (ids : MappedIds) :
    (ep.episode_type ≠ EpisodeType.REGULAR →
      map_episode_to_trakt ep ids = (0, ep.episode_number)) ∧
    (ep.episode_type = EpisodeType.REGULAR →
      map_episode_to_trakt ep ids =
        (ids.tvdb_season, ep.episode_number + ids.tvdb_epoffset)) := by
  constructor
  · intro h
    simp [map_episode_to_trakt, WatchedEpisode.is_special, h]
  · intro h
    simp [map_episode_to_trakt, WatchedEpisode.is_special, h]

/-- Witness for C3: a special episode 3 maps to `(0, 3)` even with
`tvdb_season = 5`, and a regular episode 3 with offset 2 maps to
`(5, 5)`. -/
theorem map_episode_special_regular_witness :
    map_episode_to_trakt ⟨3, .SPECIAL, none⟩
      { tvdb_season := 5, tvdb_epoffset := 2 } = (0, 3) ∧
    map_episode_to_trakt ⟨3, .REGULAR, none⟩
      { tvdb_season := 5, tvdb_epoffset := 2 } = (5, 5) := by
  refine ⟨(map_episode_special_regular ⟨3, .SPECIAL, none⟩
    { tvdb_season := 5, tvdb_epoffset := 2 }).1 (by decide), ?_⟩
  have h := (map_episode_special_regular ⟨3, .REGULAR, none⟩
    { tvdb_season := 5, tvdb_epoffset := 2 }).2 rfl
  simpa using h

/-! ## Claim C1: rating conflicts -/

/-- **C1 (counterexample).** With differing scores and *equal* timestamps
(both 2023-04-15T00:00:00) the resolver flags the conflict but keeps the
**remote** rating: `keep_anidb_rating = false`, refuting the claim that
equal timestamps favor local. -/
theorem rating_tie_keeps_remote :
    (resolve_single
        { anidb_id := 1,
          rating := some { score := 7, rated_at := some ⟨2023, 4, 15, 0, 0, 0, 0⟩ } }
        (some { trakt_id := 9, rating := some 8,
                rated_at := some ⟨2023, 4, 15, 0, 0, 0, 0⟩ })).rating_conflict
      = true ∧
    (resolve_single
        { anidb_id := 1,
          rating := some { score := 7, rated_at := some ⟨2023, 4, 15, 0, 0, 0, 0⟩ } }
        (some { trakt_id := 9, rating := some 8,
                rated_at := some ⟨2023, 4, 15, 0, 0, 0, 0⟩ })).keep_anidb_rating
      = false := by
  decide

/-- **C1 (amended).** For every local entry with a rating and remote entry
with a (truthy) rating whose scores differ, the resolver sets
`rating_conflict`, and `keep_anidb_rating` is true exactly when both
timestamps are present and the local one is *strictly* earlier, or the
local timestamp is present and the remote one is missing; equal
timestamps (and a missing local timestamp) favor remote. -/
theorem rating_conflict_resolution_older_wins
    (anime : AnimeEntry) (te : TraktEntry) (ar : AnimeRating) (tr : Int)
    (h1 : anime.rating = some ar) (h2 : te.rating = some tr) (h3 : tr ≠ 0)
    (h4 : ar.score ≠ tr) :
    (resolve_single anime (some te)).rating_conflict = true ∧
    ((resolve_single anime (some te)).keep_anidb_rating = true ↔
      (∃ a b, ar.rated_at = some a ∧ te.rated_at = some b ∧
        DateTime.ltb a b = true) ∨
      (∃ a, ar.rated_at = some a ∧ te.rated_at = none)) := by
  have hres : resolve_rating anime.rating (some te) =
      (older_rating_wins ar.rated_at te.rated_at, true) := by
    rw [h1]
    simp [resolve_rating, truthyInt, h2, h3, h4]
  refine ⟨by simp [resolve_single, hres], ?_⟩
  have hk : (resolve_single anime (some te)).keep_anidb_rating =
      older_rating_wins ar.rated_at te.rated_at := by
    simp [resolve_single, hres]
  rw [hk]
  cases ha : ar.rated_at <;> cases hb : te.rated_at <;>
    simp [older_rating_wins]

/-- Witness for C1 (amended): local rated 2023-04-15, remote rated
2024-01-01, scores 7 vs 8 — the conflict is flagged and the local rating
is kept. -/
theorem rating_conflict_resolution_older_wins_witness :
    (resolve_single
        { anidb_id := 1,
          rating := some { score := 7, rated_at := some ⟨2023, 4, 15, 0, 0, 0, 0⟩ } }
        (some { trakt_id := 9, rating := some 8,
                rated_at := some ⟨2024, 1, 1, 0, 0, 0, 0⟩ })).rating_conflict
      = true ∧
    (resolve_single
        { anidb_id := 1,
          rating := some { score := 7, rated_at := some ⟨2023, 4, 15, 0, 0, 0, 0⟩ } }
        (some { trakt_id := 9, rating := some 8,
                rated_at := some ⟨2024, 1, 1, 0, 0, 0, 0⟩ })).keep_anidb_rating
      = true := by
  have h := rating_conflict_resolution_older_wins
    { anidb_id := 1,
      rating := some { score := 7, rated_at := some ⟨2023, 4, 15, 0, 0, 0, 0⟩ } }
    { trakt_id := 9, rating := some 8, rated_at := some ⟨2024, 1, 1, 0, 0, 0, 0⟩ }
    { score := 7, rated_at := some ⟨2023, 4, 15, 0, 0, 0, 0⟩ } 8
    rfl rfl (by decide) (by decide)
  exact ⟨h.1, h.2.mpr (Or.inl ⟨⟨2023, 4, 15, 0, 0, 0, 0⟩,
    ⟨2024, 1, 1, 0, 0, 0, 0⟩, rfl, rfl, by decide⟩)⟩

/-! ## Claim C2: additive episode merge -/

/-- **C2.** For every mapped local entry and optional remote entry,
`episodes_to_sync` is exactly the locally-watched episodes whose
translated pair is not in the remote watched set, in original local order
(a `filter`); consequently it never contains a pair already on remote,
and every reported episode comes from the local list (remote-only
episodes are never removed or reported). -/
theorem episodes_to_sync_additive
    (anime : AnimeEntry) (ids : MappedIds) (h : anime.mapped_ids = some ids)
    (te? : Option TraktEntry) :
    (resolve_single anime te?).episodes_to_sync =
      anime.watched_episodes.filter
        (fun ep => map_episode_to_trakt ep ids ∉ remote_watched_set te?) ∧
    ∀ ep ∈ (resolve_single anime te?).episodes_to_sync,
      ep ∈ anime.watched_episodes ∧
        map_episode_to_trakt ep ids ∉ remote_watched_set te? := by
  have heq : (resolve_single anime te?).episodes_to_sync =
      anime.watched_episodes.filter
        (fun ep => map_episode_to_trakt ep ids ∉ remote_watched_set te?) := by
    simp [resolve_single, episodes_to_sync_of, h]
  refine ⟨heq, ?_⟩
  intro ep hep
  rw [heq] at hep
  have hm := List.mem_filter.mp hep
  exact ⟨hm.1, by simpa using hm.2⟩

/-- Witness for C2: two locally watched episodes, one of which is already
on remote as `(1, 2)` — only the other is reported. -/
theorem episodes_to_sync_additive_witness :
    (resolve_single
        { anidb_id := 1,
          watched_episodes := [⟨1, .REGULAR, none⟩, ⟨2, .REGULAR, none⟩],
          mapped_ids := some { tvdb_id := some 7 } }
        (some { trakt_id := 2, watched_episodes := [(1, 2)] })).episodes_to_sync
      = [⟨1, .REGULAR, none⟩] := by
  have h := episodes_to_sync_additive
    { anidb_id := 1,
      watched_episodes := [⟨1, .REGULAR, none⟩, ⟨2, .REGULAR, none⟩],
      mapped_ids := some { tvdb_id := some 7 } }
    { tvdb_id := some 7 } rfl
    (some { trakt_id := 2, watched_episodes := [(1, 2)] })
  rw [h.1]
  decide

/-! ## Claim C10: the duplicate check tests only the pre-existing remote set -/

/-- **C10.** The duplicate check for `episodes_to_sync` tests membership
only against the pre-existing remote set, which the loop never extends:
here two *distinct* locally watched episodes (regular 5 and special 5,
with `tvdb_season = 0`) translate to the same pair `(0, 5)`, absent from
remote, and **both** are appended. -/
theorem duplicate_translated_pairs_both_appended :
    (resolve_single
        { anidb_id := 1,
          watched_episodes := [⟨5, .REGULAR, none⟩, ⟨5, .SPECIAL, none⟩],
          mapped_ids := some { tvdb_id := some 7, tvdb_season := 0 } }
        (some { trakt_id := 2, watched_episodes := [(1, 2)] })).episodes_to_sync
      = [⟨5, .REGULAR, none⟩, ⟨5, .SPECIAL, none⟩] ∧
    map_episode_to_trakt ⟨5, .REGULAR, none⟩ { tvdb_id := some 7, tvdb_season := 0 } =
      map_episode_to_trakt ⟨5, .SPECIAL, none⟩ { tvdb_id := some 7, tvdb_season := 0 } ∧
    (⟨5, .REGULAR, none⟩ : WatchedEpisode) ≠ ⟨5, .SPECIAL, none⟩ ∧
    map_episode_to_trakt ⟨5, .REGULAR, none⟩ { tvdb_id := some 7, tvdb_season := 0 } ∉
      remote_watched_set (some { trakt_id := 2, watched_episodes := [(1, 2)] }) := by
  decide

/-! ## Claim C9: falsy identifiers count as absent -/

/-- **C9.** An identifier whose value is falsy (`None`, `0`, or the empty
string) counts as absent: all-falsy `MappedIds` have `has_any_id = false`;
an entry whose `mapped_ids` has no truthy id has `is_mapped = false` and
is silently skipped by `resolve`; a zero `tvdb_id` never reaches the
Trakt id dict; and no zero-valued numeric id ever appears in the dict. -/
theorem falsy_ids_unmapped :
    (∀ ids : MappedIds,
      (ids.tvdb_id = none ∨ ids.tvdb_id = some 0) →
      (ids.imdb_id = none ∨ ids.imdb_id = some "") →
      (ids.tmdb_show_id = none ∨ ids.tmdb_show_id = some 0) →
      (ids.tmdb_movie_id = none ∨ ids.tmdb_movie_id = some 0) →
      ids.has_any_id = false) ∧
    (∀ (a : AnimeEntry) (ids : MappedIds), a.mapped_ids = some ids →
      ids.has_any_id = false →
      a.is_mapped = false ∧ ∀ fetched, resolve fetched [a] = []) ∧
    (∀ (ids : MappedIds) (v : TraktIdVal), ids.tvdb_id = some 0 →
      ("tvdb", v) ∉ ids.get_trakt_ids) ∧
    (∀ (ids : MappedIds) (k : String),
      (k, TraktIdVal.int 0) ∉ ids.get_trakt_ids) := by
  refine ⟨?_, ?_, ?_, ?_⟩
  · intro ids h1 h2 h3 h4
    rcases h1 with h1 | h1 <;> rcases h2 with h2 | h2 <;>
      rcases h3 with h3 | h3 <;> rcases h4 with h4 | h4 <;>
      simp [MappedIds.has_any_id, truthyInt, truthyStr, h1, h2, h3, h4]
  · intro a ids ha hfalse
    have hmap : a.is_mapped = false := by
      simp [AnimeEntry.is_mapped, ha, hfalse]
    exact ⟨hmap, fun fetched => by simp [resolve, hmap]⟩
  · intro ids v h0
    simp only [MappedIds.get_trakt_ids, h0, truthyInt]
    rcases hi : ids.imdb_id with _ | s <;>
      rcases hs : ids.tmdb_show_id with _ | m <;>
      rcases hm : ids.tmdb_movie_id with _ | n <;>
      simp [truthyInt, truthyStr] <;> split_ifs <;> simp
  · intro ids k
    rcases ht : ids.tvdb_id with _ | tv <;>
      rcases hi : ids.imdb_id with _ | s <;>
      rcases hs : ids.tmdb_show_id with _ | m <;>
      rcases hm : ids.tmdb_movie_id with _ | n <;>
      simp [MappedIds.get_trakt_ids, truthyInt, truthyStr, ht, hi, hs, hm] <;>
      (try split_ifs) <;> (try simp_all) <;> (try constructor) <;> (intros; omega)

/-- Witness for C9: an entry whose only identifier is `tvdb_id = 0` is
unmapped, skipped by `resolve`, and yields no `tvdb` key. -/
theorem falsy_ids_unmapped_witness :
    MappedIds.has_any_id { tvdb_id := some 0 } = false ∧
    AnimeEntry.is_mapped { anidb_id := 3, mapped_ids := some { tvdb_id := some 0 } }
      = false ∧
    resolve (fun _ => none)
      [{ anidb_id := 3, mapped_ids := some { tvdb_id := some 0 } }] = [] ∧
    ("tvdb", TraktIdVal.int 0) ∉
      MappedIds.get_trakt_ids { tvdb_id := some 0 } := by
  refine ⟨falsy_ids_unmapped.1 _ (Or.inr rfl) (Or.inl rfl) (Or.inl rfl) (Or.inl rfl),
    (falsy_ids_unmapped.2.1 _ { tvdb_id := some 0 } rfl (by decide)).1,
    (falsy_ids_unmapped.2.1 _ { tvdb_id := some 0 } rfl (by decide)).2 _,
    falsy_ids_unmapped.2.2.1 _ _ rfl⟩

/-! ## Claim C4: circuit breaker -/

/-- The ratings batch loop never touches the history counter. -/
lemma sync_ratings_go_history_attempted (os : List (Option SyncResponse)) :
    ∀ (c : Nat) (r : SyncResults),
      (sync_ratings_go os c r).history_batches_attempted =
        r.history_batches_attempted := by
  induction os with
  | nil => intro c r; rfl
  | cons o rest ih =>
    intro c r
    cases o with
    | none =>
      by_cases h : c + 1 ≥ MAX_CONSECUTIVE_FAILURES <;>
        simp [sync_ratings_go, h, ih]
    | some resp => simp [sync_ratings_go, ih, accum_ratings]

/-- Shifting a triple's start index across one leading outcome. -/
lemma tripleAt_cons_succ (o : Option SyncResponse) (os : List (Option SyncResponse))
    (i : Nat) : tripleAt (o :: os) (i + 1) ↔ tripleAt os i := by
  simp [tripleAt, List.drop_succ_cons]

/-- A triple starting at `i` needs at least `i + 3` outcomes. -/
lemma tripleAt_length (os : List (Option SyncResponse)) (i : Nat)
    (h : tripleAt os i) : i + 3 ≤ os.length := by
  unfold tripleAt at h
  have := congrArg List.length h
  simp [List.length_take, List.length_drop] at this
  omega

/-- The heart of the circuit breaker, over **every** outcome sequence:
starting with a zero counter, the ratings loop runs until the *first*
index `i` at which three consecutive batches fail (successes in between
reset the counter, so earlier isolated failures do not trip it), sets
`stopped_early` there, and has then attempted exactly `i + 3` batches. -/
lemma sync_ratings_go_first_triple :
    ∀ (n : Nat) (os : List (Option SyncResponse)), os.length ≤ n →
      ∀ (i : Nat) (r : SyncResults),
        tripleAt os i → (∀ j, j < i → ¬ tripleAt os j) →
        (sync_ratings_go os 0 r).stopped_early = true ∧
        (sync_ratings_go os 0 r).ratings_batches_attempted =
          r.ratings_batches_attempted + (i + 3) := by
  intro n
  induction n with
  | zero =>
    intro os hlen i r h_i _
    have := tripleAt_length os i h_i
    omega
  | succ n ih =>
    intro os hlen i r h_i h_min
    cases os with
    | nil =>
      have := tripleAt_length [] i h_i
      simp at this
    | cons o rest =>
      cases o with
      | some resp =>
        cases i with
        | zero => simp [tripleAt] at h_i
        | succ i' =>
          have h_i' : tripleAt rest i' := (tripleAt_cons_succ _ _ _).mp h_i
          have h_min' : ∀ j, j < i' → ¬ tripleAt rest j := fun j hj hc =>
            h_min (j + 1) (by omega) ((tripleAt_cons_succ _ _ _).mpr hc)
          have hlen' : rest.length ≤ n := by
            simp only [List.length_cons] at hlen
            omega
          have H := ih rest hlen' i'
            (accum_ratings resp
              { r with ratings_batches_attempted := r.ratings_batches_attempted + 1 })
            h_i' h_min'
          constructor
          · simpa [sync_ratings_go] using H.1
          · have h2 := H.2
            simp only [accum_ratings] at h2
            simp [sync_ratings_go, accum_ratings, h2]
            omega
      | none =>
        cases i with
        | zero =>
          obtain ⟨post, rfl⟩ : ∃ post, rest = none :: none :: post := by
            cases rest with
            | nil => simp [tripleAt] at h_i
            | cons o2 rest2 =>
              cases rest2 with
              | nil => simp [tripleAt] at h_i
              | cons o3 rest3 =>
                simp [tripleAt] at h_i
                exact ⟨rest3, by simp [h_i.1, h_i.2]⟩
          constructor <;> simp [sync_ratings_go, MAX_CONSECUTIVE_FAILURES]
        | succ i' =>
          have h0 : ¬ tripleAt (none :: rest) 0 := h_min 0 (by omega)
          cases rest with
          | nil =>
            have := tripleAt_length (none :: []) (i' + 1) h_i
            simp at this
          | cons o2 rest2 =>
            cases o2 with
            | some resp2 =>
              have h_i1 : tripleAt (some resp2 :: rest2) i' :=
                (tripleAt_cons_succ _ _ _).mp h_i
              cases i' with
              | zero => simp [tripleAt] at h_i1
              | succ i2 =>
                have h_i2 : tripleAt rest2 i2 := (tripleAt_cons_succ _ _ _).mp h_i1
                have h_min2 : ∀ j, j < i2 → ¬ tripleAt rest2 j := fun j hj hc =>
                  h_min (j + 2) (by omega)
                    ((tripleAt_cons_succ _ _ _).mpr
                      ((tripleAt_cons_succ _ _ _).mpr hc))
                have hlen' : rest2.length ≤ n := by
                  simp only [List.length_cons] at hlen
                  omega
                have H := ih rest2 hlen' i2
                  (accum_ratings resp2
                    { r with ratings_batches_attempted :=
                        r.ratings_batches_attempted + 1 + 1 })
                  h_i2 h_min2
                constructor
                · simpa [sync_ratings_go, MAX_CONSECUTIVE_FAILURES] using H.1
                · have h2 := H.2
                  simp only [accum_ratings] at h2
                  simp [sync_ratings_go, MAX_CONSECUTIVE_FAILURES, accum_ratings, h2]
                  omega
            | none =>
              cases rest2 with
              | nil =>
                have := tripleAt_length (none :: none :: []) (i' + 1) h_i
                simp at this
              | cons o3 rest3 =>
                cases o3 with
                | none => exact absurd rfl h0
                | some resp3 =>
                  have h_i1 : tripleAt (none :: some resp3 :: rest3) i' :=
                    (tripleAt_cons_succ _ _ _).mp h_i
                  cases i' with
                  | zero => simp [tripleAt] at h_i1
                  | succ i2 =>
                    have h_i2 : tripleAt (some resp3 :: rest3) i2 :=
                      (tripleAt_cons_succ _ _ _).mp h_i1
                    cases i2 with
                    | zero => simp [tripleAt] at h_i2
                    | succ i3 =>
                      have h_i3 : tripleAt rest3 i3 :=
                        (tripleAt_cons_succ _ _ _).mp h_i2
                      have h_min3 : ∀ j, j < i3 → ¬ tripleAt rest3 j :=
                        fun j hj hc =>
                          h_min (j + 3) (by omega)
                            ((tripleAt_cons_succ _ _ _).mpr
                              ((tripleAt_cons_succ _ _ _).mpr
                                ((tripleAt_cons_succ _ _ _).mpr hc)))
                      have hlen' : rest3.length ≤ n := by
                        simp only [List.length_cons] at hlen
                        omega
                      have H := ih rest3 hlen' i3
                        (accum_ratings resp3
                          { r with ratings_batches_attempted :=
                              r.ratings_batches_attempted + 1 + 1 + 1 })
                        h_i3 h_min3
                      constructor
                      · simpa [sync_ratings_go, MAX_CONSECUTIVE_FAILURES] using H.1
                      · have h2 := H.2
                        simp only [accum_ratings] at h2
                        simp [sync_ratings_go, MAX_CONSECUTIVE_FAILURES,
                          accum_ratings, h2]
                        omega

/-- **C4.** For every outcome sequence in which 3 consecutive batches fail
— `i` being the first index where such a run starts, with successes
resetting the counter before it — the engine sets `stopped_early`
immediately after the third consecutive failure, having attempted exactly
`i + 3` ratings batches and no batch after it; and because ratings run
before history, no history batch is attempted at all in that run. -/
theorem circuit_breaker_stops_after_three
    (outcomes houts : List (Option SyncResponse)) (i : Nat)
    (h_i : tripleAt outcomes i) (h_min : ∀ j, j < i → ¬ tripleAt outcomes j) :
    (sync_run (some outcomes) (some houts)).stopped_early = true ∧
    (sync_run (some outcomes) (some houts)).ratings_batches_attempted = i + 3 ∧
    (sync_run (some outcomes) (some houts)).history_batches_attempted = 0 := by
  have h := sync_ratings_go_first_triple outcomes.length outcomes (le_refl _)
    i {} h_i h_min
  have hh := sync_ratings_go_history_attempted outcomes 0 {}
  have hrun : sync_run (some outcomes) (some houts)
      = sync_ratings_go outcomes 0 {} := by
    simp [sync_run, h.1]
  rw [hrun]
  refine ⟨h.1, ?_, ?_⟩
  · rw [h.2]; simp
  · rw [hh]

/-- Witness for C4: an isolated failure, a success (resetting the
counter), then three consecutive failures with more batches pending in
both phases — the breaker trips after the fifth attempted ratings batch
(not the fourth, as counting total failures would) and no history batch
runs. -/
theorem circuit_breaker_stops_after_three_witness :
    (sync_run (some [none, some {}, none, none, none, some {}])
        (some [some {}])).stopped_early = true ∧
    (sync_run (some [none, some {}, none, none, none, some {}])
        (some [some {}])).ratings_batches_attempted = 5 ∧
    (sync_run (some [none, some {}, none, none, none, some {}])
        (some [some {}])).history_batches_attempted = 0 := by
  have h := circuit_breaker_stops_after_three
    [none, some {}, none, none, none, some {}] [some {}] 2
    (by decide) (by decide)
  simpa using h

/-! ## Claim C5: per-batch retry and failure recording -/

/-- **C5.** `_sync_batch` policy: a 5xx `TraktAPIError` sleeps
`min(5 · 2^consecutive_failures, 60)` seconds and retries exactly once,
recording the batch (payload and category) as failed only if the retry
also raises a `TraktAPIError`; a non-5xx `TraktAPIError` is recorded as
failed immediately, with no retry and no sleep; in these failure cases
nothing is raised out of the loop (`raised = false`), the error is
captured in the results records, and the loop's consecutive-failure
counter increments on the `None` outcome (final conjunct, the loop-step
equation). -/
theorem sync_batch_retry_policy {π : Type} (data : π) (bn cf : Nat) (bt : String)
    (sc : Nat) (a2 : CallResult) :
    (sc ≥ 500 →
      (∀ r, a2 = .ok r →
        sync_batch (.apiError sc) a2 data bn cf bt =
          { response := some r, raised := false, new_failed_batches := [],
            new_errors := [],
            slept := some (min (BACKOFF_BASE_SECONDS * 2 ^ cf) MAX_BACKOFF_SECONDS),
            retried := true }) ∧
      (∀ sc2, a2 = .apiError sc2 →
        sync_batch (.apiError sc) a2 data bn cf bt =
          { response := none, raised := false,
            new_failed_batches := [(bt, data)], new_errors := [(bt, bn)],
            slept := some (min (BACKOFF_BASE_SECONDS * 2 ^ cf) MAX_BACKOFF_SECONDS),
            retried := true })) ∧
    (¬ sc ≥ 500 →
      sync_batch (.apiError sc) a2 data bn cf bt =
        { response := none, raised := false,
          new_failed_batches := [(bt, data)], new_errors := [(bt, bn)],
          slept := none, retried := false }) ∧
    (∀ (rest : List (Option SyncResponse)) (c : Nat) (res : SyncResults),
      sync_ratings_go (none :: rest) c res =
        if c + 1 ≥ MAX_CONSECUTIVE_FAILURES then
          { res with
            ratings_batches_attempted := res.ratings_batches_attempted + 1,
            stopped_early := true }
        else
          sync_ratings_go rest (c + 1)
            { res with
              ratings_batches_attempted := res.ratings_batches_attempted + 1 }) := by
  refine ⟨fun h5 => ⟨?_, ?_⟩, fun hlt => ?_, fun rest c res => ?_⟩
  · intro r hr
    subst hr
    simp [sync_batch, h5]
  · intro sc2 hr
    subst hr
    simp [sync_batch, h5]
  · cases a2 <;> simp [sync_batch, hlt]
  · by_cases h : c + 1 ≥ MAX_CONSECUTIVE_FAILURES <;> simp [sync_ratings_go, h]

/-- Witness for C5: a 503 followed by a failed retry with
`consecutive_failures = 2` sleeps `min(5·4, 60) = 20` and records the
batch; a 404 is recorded at once with no sleep and no retry. -/
theorem sync_batch_retry_policy_witness :
    sync_batch (π := Unit) (.apiError 503) (.apiError 500) () 1 2 "ratings" =
      { response := none, raised := false,
        new_failed_batches := [("ratings", ())], new_errors := [("ratings", 1)],
        slept := some 20, retried := true } ∧
    sync_batch (π := Unit) (.apiError 404) (.ok {}) () 1 2 "ratings" =
      { response := none, raised := false,
        new_failed_batches := [("ratings", ())], new_errors := [("ratings", 1)],
        slept := none, retried := false } := by
  constructor
  · have h := ((sync_batch_retry_policy (π := Unit) () 1 2 "ratings" 503
      (.apiError 500)).1 (by norm_num)).2 500 rfl
    simpa [BACKOFF_BASE_SECONDS, MAX_BACKOFF_SECONDS] using h
  · have h := (sync_batch_retry_policy (π := Unit) () 1 2 "ratings" 404
      (.ok {})).2.1 (by norm_num)
    exact h

/-! ## Claim C6: 429 handling -/

/-- With every attempt answered 429, the request loop sleeps the served
`Retry-After` (default 60) once per remaining attempt and then raises
`Max retries exceeded`. -/
lemma request_go_all_429 (ra : Option Nat) :
    ∀ fuel idx, request_go (fun _ => .response 429 ra) fuel idx =
      (.maxRetries, List.replicate fuel (ra.getD 60)) := by
  intro fuel
  induction fuel with
  | zero => intro idx; rfl
  | succ n ih => intro idx; simp [request_go, ih, List.replicate_succ]

/-- **C6 (counterexample).** With the server answering 429 (`Retry-After:
7`) to every attempt, the client does *not* retry indefinitely: each 429
consumes one of the default 3 attempts, and after the third sleep the
request raises `Max retries exceeded` instead of retrying again. -/
theorem rate_limit_retries_bounded :
    request (fun _ => .response 429 (some 7)) = (.maxRetries, [7, 7, 7]) := rfl

/-- **C6 (amended).** On a 429 the client sleeps the server's
`Retry-After` (default 60 when the header is absent) and retries the same
request, but each 429 consumes one of the request's `retries` attempts
(default 3): with every attempt answered 429 the request ends in
`Max retries exceeded` after exactly `retries` sleeps. The in-request 429
waits are invisible to the sync engine: a call that eventually succeeds
surfaces as a plain success to `_sync_batch`, recording no failure. -/
theorem rate_limit_retry_after_policy :
    (∀ (oracle : Nat → HttpAttempt) (fuel idx : Nat) (ra : Option Nat),
      oracle idx = .response 429 ra →
      request_go oracle (fuel + 1) idx =
        ((request_go oracle fuel (idx + 1)).1,
          ra.getD 60 :: (request_go oracle fuel (idx + 1)).2)) ∧
    (∀ (ra : Option Nat) (retries : Nat),
      request (fun _ => .response 429 ra) retries =
        (.maxRetries, List.replicate retries (ra.getD 60))) ∧
    (∀ {π : Type} (data : π) (bn cf : Nat) (bt : String) (r : SyncResponse)
        (a2 : CallResult),
      sync_batch (.ok r) a2 data bn cf bt =
        { response := some r, raised := false, new_failed_batches := [],
          new_errors := [], slept := none, retried := false }) := by
  refine ⟨?_, ?_, ?_⟩
  · intro oracle fuel idx ra h
    simp [request_go, h]
  · intro ra retries
    exact request_go_all_429 ra retries 0
  · intro π data bn cf bt r a2
    simp [sync_batch]

/-- Witness for C6 (amended): a 429 with `Retry-After: 7` at attempt 0
sleeps 7 and recurses on the remaining attempts; an all-429 request with
no header sleeps the default 60 three times and fails. -/
theorem rate_limit_retry_after_policy_witness :
    request_go (fun _ => .response 429 (some 7)) 3 0 =
      ((request_go (fun _ => .response 429 (some 7)) 2 1).1,
        7 :: (request_go (fun _ => .response 429 (some 7)) 2 1).2) ∧
    request (fun _ => .response 429 none) = (.maxRetries, [60, 60, 60]) := by
  refine ⟨rate_limit_retry_after_policy.1 _ 2 0 (some 7) rfl, ?_⟩
  have h := rate_limit_retry_after_policy.2.1 none 3
  simpa using h

/-! ## Claim C7: checkpoint load errors -/

/-- **C7 (counterexample).** A checkpoint file whose contents fail JSON
parsing does *not* propagate a fatal error: `load_checkpoint` swallows the
`json.JSONDecodeError` and returns `None` to the caller. -/
theorem malformed_checkpoint_swallowed :
    load_checkpoint (ε := Unit)
      (some (.error "Expecting value: line 1 column 1 (char 0)")) = .ok none := rfl

/-- **C7 (amended).** Loading a malformed checkpoint file (JSON or OS
error) is swallowed: `load_checkpoint` returns `None` instead of raising;
and per-batch API errors never raise out of the sync loop — an exception
escapes `_sync_batch` exactly in the corner case where a ≥ 500 first
attempt is retried and the retry raises a non-`TraktAPIError`. -/
theorem checkpoint_and_batch_error_policy :
    (∀ (ε : Type) (e : String),
      load_checkpoint (ε := ε) (some (.error e)) = .ok none) ∧
    (∀ {π : Type} (data : π) (bn cf : Nat) (bt : String) (a1 a2 : CallResult),
      (sync_batch a1 a2 data bn cf bt).raised = true ↔
        ∃ sc, a1 = .apiError sc ∧ sc ≥ 500 ∧ a2 = .unexpected) := by
  constructor
  · intro ε e
    rfl
  · intro π data bn cf bt a1 a2
    cases a1 with
    | ok r => simp [sync_batch]
    | unexpected => simp [sync_batch]
    | apiError sc =>
      by_cases h5 : sc ≥ 500
      · cases a2 <;> simp [sync_batch, h5]
      · cases a2 <;> simp [sync_batch, h5]

/-! ## Claim C8: checkpoint round-trip -/

/-- Every digit character the formatter writes satisfies `isdigit`. -/
lemma digitChar_isDigit (k : Nat) : (digitChar k).isDigit = true := by
  unfold digitChar
  have h : k % 10 < 10 := Nat.mod_lt k (by norm_num)
  obtain ⟨r, hr, hlt⟩ : ∃ r, k % 10 = r ∧ r < 10 := ⟨k % 10, rfl, h⟩
  rw [hr]
  interval_cases r <;> decide

/-- Reading back a formatted digit recovers the digit. -/
lemma digitVal_digitChar (k : Nat) : digitVal (digitChar k) = some (k % 10) := by
  unfold digitChar
  have h : k % 10 < 10 := Nat.mod_lt k (by norm_num)
  obtain ⟨r, hr, hlt⟩ : ∃ r, k % 10 = r ∧ r < 10 := ⟨k % 10, rfl, h⟩
  rw [hr]
  interval_cases r <;> decide

/-- `Z` is not a digit character. -/
lemma Z_ne_digitChar (k : Nat) : ('Z' = digitChar k) ↔ False := by
  simp only [iff_false]
  intro h
  have hd := digitChar_isDigit k
  rw [← h] at hd
  exact absurd hd (by decide)

/-- `+` is not a digit character. -/
lemma plus_ne_digitChar (k : Nat) : ('+' = digitChar k) ↔ False := by
  simp only [iff_false]
  intro h
  have hd := digitChar_isDigit k
  rw [← h] at hd
  exact absurd hd (by decide)

/-- The serializer's output is the core followed by the `Z` suffix. -/
lemma datetime_to_iso_eq (dt : DateTime) :
    datetime_to_iso (some dt) = some (isoCore dt ++ ['Z']) := by
  simp [datetime_to_iso, isoCore]

/-- The year field contains only digit characters, never `Z`. -/
lemma Z_not_mem_formatYear (y : Nat) : 'Z' ∉ formatYear y := by
  unfold formatYear
  split_ifs <;> simp [pad4, Z_ne_digitChar]

/-- The year field contains only digit characters, never `+`. -/
lemma plus_not_mem_formatYear (y : Nat) : '+' ∉ formatYear y := by
  unfold formatYear
  split_ifs <;> simp [pad4, plus_ne_digitChar]

/-- The core of a serialized timestamp contains no `Z`. -/
lemma Z_not_mem_isoCore (dt : DateTime) : 'Z' ∉ isoCore dt := by
  simp [isoCore, pad2, Z_ne_digitChar, Z_not_mem_formatYear]

/-- The core of a serialized timestamp contains no `+`. -/
lemma plus_not_mem_isoCore (dt : DateTime) : '+' ∉ isoCore dt := by
  simp [isoCore, pad2, plus_ne_digitChar, plus_not_mem_formatYear]

/-- Unfolding step of `replaceAll` when the pattern does not match here. -/
lemma replaceAll_cons_no_match (pat repl : List Char) (c : Char) (cs : List Char)
    (h : ¬(startsWith pat (c :: cs) ∧ pat ≠ [])) :
    replaceAll pat repl (c :: cs) = c :: replaceAll pat repl cs := by
  simp only [replaceAll]
  rw [if_neg h]

/-- Unfolding step of `replaceAll` when the pattern matches here. -/
lemma replaceAll_cons_match (pat repl : List Char) (c : Char) (cs : List Char)
    (h : startsWith pat (c :: cs) ∧ pat ≠ []) :
    replaceAll pat repl (c :: cs) =
      repl ++ replaceAll pat repl (cs.drop (pat.length - 1)) := by
  simp only [replaceAll]
  rw [if_pos h]

/-- `replaceAll` passes over a prefix that does not contain the pattern's
first character. -/
lemma replaceAll_head_notMem (p : Char) (ps repl : List Char) :
    ∀ body tail : List Char, p ∉ body →
      replaceAll (p :: ps) repl (body ++ tail) =
        body ++ replaceAll (p :: ps) repl tail := by
  intro body
  induction body with
  | nil => intro tail _; simp
  | cons c cs ih =>
    intro tail h
    simp only [List.mem_cons, not_or] at h
    have hs : ¬(startsWith (p :: ps) (c :: (cs ++ tail)) ∧ (p :: ps) ≠ []) := by
      simp [startsWith, h.1]
    rw [List.cons_append, replaceAll_cons_no_match _ _ _ _ hs, ih tail h.2]
    rfl

/-- Parsing back a two-digit field. -/
lemma parse2digits_pad2 (n : Nat) (h : n < 100) (rest : List Char) :
    parse2digits (pad2 n ++ rest) = some (n, rest) := by
  simp [pad2, parse2digits, digitVal_digitChar]
  omega

/-- Parsing back a four-digit field. -/
lemma parse4digits_pad4 (n : Nat) (h : n < 10000) (rest : List Char) :
    parse4digits (pad4 n ++ rest) = some (n, rest) := by
  simp [pad4, parse4digits, digitVal_digitChar]
  omega

/-- Consuming the expected character succeeds. -/
lemma expectChar_self (ch : Char) (rest : List Char) :
    expectChar ch (ch :: rest) = some rest := by
  simp [expectChar]

/-- Every month has at most 31 days. -/
lemma daysInMonth_le (y m : Nat) : daysInMonth y m ≤ 31 := by
  unfold daysInMonth
  split_ifs <;> simp

/-- For a four-digit year the serialized core parses back to the datetime
with its microseconds zeroed (the serializer always writes `.000`). -/
lemma fromisoformat_isoCore (t : DateTime) (hv : t.valid) (hy : 1000 ≤ t.year) :
    fromisoformat (isoCore t) = some { t with microsecond := 0 } := by
  obtain ⟨y, mo, d, h, mi, s, micro⟩ := t
  simp only [DateTime.valid] at hv
  obtain ⟨h1, h2, h3, h4, h5, h6, h7, h8, h9, h10⟩ := hv
  have hy' : 1000 ≤ y := hy
  have hd : d < 100 := by
    have := daysInMonth_le y mo
    omega
  simp only [isoCore, List.append_assoc, List.cons_append]
  rw [show formatYear y = pad4 y from by unfold formatYear; rw [if_pos hy']]
  unfold fromisoformat
  rw [parse4digits_pad4 y (by omega)]
  simp only [Option.bind_eq_bind, Option.some_bind]
  rw [expectChar_self]
  simp only [Option.some_bind]
  rw [parse2digits_pad2 mo (by omega)]
  simp only [Option.some_bind]
  rw [expectChar_self]
  simp only [Option.some_bind]
  rw [parse2digits_pad2 d hd]
  simp only [Option.some_bind]
  rw [parse2digits_pad2 h (by omega)]
  simp only [Option.some_bind]
  rw [expectChar_self]
  simp only [Option.some_bind]
  rw [parse2digits_pad2 mi (by omega)]
  simp only [Option.some_bind]
  rw [expectChar_self]
  simp only [Option.some_bind]
  rw [parse2digits_pad2 s (by omega)]
  simp only [Option.some_bind]
  rw [show parseFraction ['0', '0', '0'] = some 0 from by decide]
  simp only [Option.some_bind]
  unfold mkDateTime
  rw [if_pos ⟨h1, h2, h3, h4, h5, h6, h7, h8, h9, by omega⟩]

/-- Stripping the `Z` suffix: `iso_to_datetime`'s two `replace` passes
rewrite the serialized string back to its core. -/
lemma strip_suffix_isoCore (t : DateTime) :
    replaceAll plusZeros [] (replaceAll ['Z'] plusZeros (isoCore t ++ ['Z']))
      = isoCore t := by
  have e1 : replaceAll ['Z'] plusZeros (isoCore t ++ ['Z']) = isoCore t ++ plusZeros := by
    rw [replaceAll_head_notMem 'Z' [] plusZeros (isoCore t) ['Z'] (Z_not_mem_isoCore t)]
    rw [replaceAll_cons_match ['Z'] plusZeros 'Z' [] ⟨by decide, by simp⟩]
    simp [replaceAll]
  rw [e1]
  rw [show plusZeros = '+' :: ['0', '0', ':', '0', '0'] from rfl]
  rw [replaceAll_head_notMem '+' ['0', '0', ':', '0', '0'] []
    (isoCore t) ('+' :: ['0', '0', ':', '0', '0']) (plus_not_mem_isoCore t)]
  rw [replaceAll_cons_match _ _ _ _ ⟨by decide, by simp⟩]
  simp [replaceAll]

/-- The timestamp round-trip for four-digit years: serialize then parse
yields the datetime with microseconds zeroed. -/
lemma iso_roundtrip (t : DateTime) (hv : t.valid) (hy : 1000 ≤ t.year) :
    iso_to_datetime (datetime_to_iso (some t)) = some { t with microsecond := 0 } := by
  rw [datetime_to_iso_eq]
  simp only [iso_to_datetime]
  rw [if_neg (by simp), strip_suffix_isoCore]
  exact fromisoformat_isoCore t hv hy

/-- A `-` as the fourth character fails the year parse. -/
lemma parse4digits_dash4 (k1 k2 k3 : Nat) (rest : List Char) :
    parse4digits (digitChar k1 :: digitChar k2 :: digitChar k3 :: '-' :: rest)
      = none := by
  simp [parse4digits, digitVal_digitChar, show digitVal '-' = none from by decide]

/-- A `-` as the third character fails the year parse. -/
lemma parse4digits_dash3 (k1 k2 : Nat) (c : Char) (rest : List Char) :
    parse4digits (digitChar k1 :: digitChar k2 :: '-' :: c :: rest) = none := by
  simp [parse4digits, digitVal_digitChar, show digitVal '-' = none from by decide]

/-- A `-` as the second character fails the year parse. -/
lemma parse4digits_dash2 (k1 : Nat) (c1 c2 : Char) (rest : List Char) :
    parse4digits (digitChar k1 :: '-' :: c1 :: c2 :: rest) = none := by
  simp [parse4digits, digitVal_digitChar, show digitVal '-' = none from by decide]

/-- For a year below 1000 the unpadded year field makes the parse fail:
`parse4digits` hits the `-` separator inside its four characters. -/
lemma fromisoformat_short_year (t : DateTime) (hy : t.year < 1000) :
    fromisoformat (isoCore t) = none := by
  obtain ⟨y, mo, d, h, mi, s, micro⟩ := t
  have hy' : y < 1000 := hy
  simp only [isoCore]
  unfold formatYear
  rw [if_neg (by omega)]
  split_ifs with hc1 hc2
  · simp only [pad2, List.cons_append, List.nil_append, List.append_assoc]
    unfold fromisoformat
    rw [parse4digits_dash4]
    rfl
  · simp only [pad2, List.cons_append, List.nil_append, List.append_assoc]
    unfold fromisoformat
    rw [parse4digits_dash3]
    rfl
  · simp only [pad2, List.cons_append, List.nil_append, List.append_assoc]
    unfold fromisoformat
    rw [parse4digits_dash2]
    rfl

/-- The timestamp round-trip for years below 1000: the reloaded timestamp
is `None` (the program's `fromisoformat` raises `ValueError` on the
unpadded year, which `iso_to_datetime` turns into `None`). -/
lemma iso_roundtrip_short_year (t : DateTime) (hy : t.year < 1000) :
    iso_to_datetime (datetime_to_iso (some t)) = none := by
  rw [datetime_to_iso_eq]
  simp only [iso_to_datetime]
  rw [if_neg (by simp), strip_suffix_isoCore]
  exact fromisoformat_short_year t hy

/-- **C8 (counterexample).** A checkpoint whose timestamp carries
microseconds (2023-04-15T10:30:05.123456) does *not* round-trip to an
identical structure: the timestamp is written with a literal `.000`
fraction, so it reloads with the microseconds zeroed. -/
theorem checkpoint_roundtrip_drops_micros :
    load_checkpoint_data (save_checkpoint (ε := Unit) ⟨2024, 1, 1, 0, 0, 0, 0⟩
        { last_processed_index := 10, synced_ratings := [1, 2, 3],
          timestamp := some ⟨2023, 4, 15, 10, 30, 5, 123456⟩ }) =
      { last_processed_index := 10, synced_ratings := [1, 2, 3],
        timestamp := some ⟨2023, 4, 15, 10, 30, 5, 0⟩ } ∧
    load_checkpoint_data (save_checkpoint (ε := Unit) ⟨2024, 1, 1, 0, 0, 0, 0⟩
        { last_processed_index := 10, synced_ratings := [1, 2, 3],
          timestamp := some ⟨2023, 4, 15, 10, 30, 5, 123456⟩ }) ≠
      { last_processed_index := 10, synced_ratings := [1, 2, 3],
        timestamp := some ⟨2023, 4, 15, 10, 30, 5, 123456⟩ } := by
  have h := iso_roundtrip ⟨2023, 4, 15, 10, 30, 5, 123456⟩ (by decide) (by norm_num)
  constructor
  · simp [load_checkpoint_data, save_checkpoint, h]
  · simp [load_checkpoint_data, save_checkpoint, h]

/-- **C8 (amended).** For every checkpoint whose timestamp is present and
in `datetime`'s valid ranges: with a four-digit year (≥ 1000),
save-then-load yields the same structure except that the timestamp's
microseconds are zeroed, so a whole-second timestamp — in particular
`last_processed_index=10`, `synced_ratings=[1,2,3]` — round-trips
unchanged; with a year below 1000 the unpadded `%Y` output is rejected by
`fromisoformat` on reload and the timestamp comes back as `None`. -/
theorem checkpoint_roundtrip (ε : Type) (cp : SyncCheckpoint ε) (now t : DateTime)
    (h1 : cp.timestamp = some t) (h2 : t.valid) :
    (1000 ≤ t.year →
      load_checkpoint_data (save_checkpoint now cp) =
        { cp with timestamp := some { t with microsecond := 0 } } ∧
      (t.microsecond = 0 → load_checkpoint_data (save_checkpoint now cp) = cp)) ∧
    (t.year < 1000 →
      load_checkpoint_data (save_checkpoint now cp) =
        { cp with timestamp := none }) := by
  constructor
  · intro hy
    have h := iso_roundtrip t h2 hy
    have hmain : load_checkpoint_data (save_checkpoint now cp) =
        { cp with timestamp := some { t with microsecond := 0 } } := by
      simp [load_checkpoint_data, save_checkpoint, h1, h]
    refine ⟨hmain, fun h0 => ?_⟩
    have hts : ({ t with microsecond := 0 } : DateTime) = t := by
      cases t
      simp_all
    rw [hmain, hts, ← h1]
  · intro hy
    have h := iso_roundtrip_short_year t hy
    simp [load_checkpoint_data, save_checkpoint, h1, h]

/-- Witness for C8 (amended): the spec's example checkpoint with a
whole-second 2023 timestamp reloads identically, and a year-999 timestamp
reloads as `None`. -/
theorem checkpoint_roundtrip_witness :
    load_checkpoint_data (save_checkpoint (ε := Unit) ⟨2024, 1, 1, 0, 0, 0, 0⟩
        { last_processed_index := 10, synced_ratings := [1, 2, 3],
          timestamp := some ⟨2023, 4, 15, 10, 30, 5, 0⟩ }) =
      { last_processed_index := 10, synced_ratings := [1, 2, 3],
        timestamp := some ⟨2023, 4, 15, 10, 30, 5, 0⟩ } ∧
    load_checkpoint_data (save_checkpoint (ε := Unit) ⟨2024, 1, 1, 0, 0, 0, 0⟩
        { last_processed_index := 7,
          timestamp := some ⟨999, 4, 15, 10, 30, 5, 0⟩ }) =
      { last_processed_index := 7, timestamp := none } := by
  constructor
  · exact ((checkpoint_roundtrip Unit _ ⟨2024, 1, 1, 0, 0, 0, 0⟩
      ⟨2023, 4, 15, 10, 30, 5, 0⟩ rfl (by decide)).1 (by norm_num)).2 rfl
  · exact (checkpoint_roundtrip Unit _ ⟨2024, 1, 1, 0, 0, 0, 0⟩
      ⟨999, 4, 15, 10, 30, 5, 0⟩ rfl (by decide)).2 (by norm_num)

end AnidbToTrakt
